import Mathlib

/-!
Shallow embedding of the ChessCoach scraping core: the rating-probability
engine (`probability.py`, `config.py`) and the streak detector
(`streak_analyzer.py`, with the rating-deviation lookup of `chess_api.py`).
Python floats are modelled as real numbers, optional values as `Option`,
dictionaries as association lists, and the runtime `TypeError` raised on the
win path of `detect_win_streaks` (unpacking the scalar returned by
`expected_win_prob_glicko` into three variables) as an `Except.error`.
-/

namespace ChessCoach

/-! ### Constants (config.py) -/

/-- Conversion factor between Glicko and standard rating scales (config.py). -/
noncomputable def GLICKO_SCALE : ℝ := 173.7178

/-- Base rating in the Glicko system (config.py). -/
noncomputable def GLICKO_BASE_RATING : ℝ := 1500

/-- K-factor for Elo probability calculations (config.py). -/
noncomputable def ELO_K_FACTOR : ℝ := 400

/-! ### Rating-probability engine (probability.py) -/

/-- Convert a rating to the Glicko mu scale (probability.py, `to_mu`). -/
noncomputable def to_mu (rating : ℝ) : ℝ := (rating - GLICKO_BASE_RATING) / GLICKO_SCALE

/-- Convert a rating deviation to the Glicko phi scale (probability.py, `to_phi`). -/
noncomputable def to_phi (rd : ℝ) : ℝ := rd / GLICKO_SCALE

/-- Glicko g(phi) function (probability.py, `g_function`). -/
noncomputable def g_function (phi : ℝ) : ℝ :=
  1 / Real.sqrt (1 + 3 * phi ^ 2 / Real.pi ^ 2)

/-- Numerically stable sigmoid (probability.py, `expit`); the two branches of
the source are kept even though they are equal over the reals. -/
noncomputable def expit (x : ℝ) : ℝ :=
  if 0 ≤ x then 1 / (1 + Real.exp (-x)) else Real.exp x / (1 + Real.exp x)

/-- Symmetric Glicko-style win probability with combined uncertainty
(probability.py, `_expected_prob_symmetric`). -/
noncomputable def _expected_prob_symmetric (mu_w mu_l phi_w phi_l : ℝ) : ℝ :=
  expit (g_function (Real.sqrt (phi_w * phi_w + phi_l * phi_l)) * (mu_w - mu_l))

/-- Body of the fixed-point iteration of `_estimate_pre_diff_from_post`
(probability.py lines 115-126 and 136-143): the pair (delta_w, delta_l) of
implied rating deltas at gap guess `d_pre`. -/
noncomputable def _pre_diff_deltas (phi_w_est phi_l_est d_pre : ℝ) : ℝ × ℝ :=
  let g_w := g_function phi_l_est
  let g_l := g_function phi_w_est
  let E_w := expit (g_w * d_pre)
  let E_l := expit (g_l * (-d_pre))
  let phi_w_prime_sq := 1 / (1 / phi_w_est ^ 2 + g_w ^ 2 * E_w * (1 - E_w))
  let phi_l_prime_sq := 1 / (1 / phi_l_est ^ 2 + g_l ^ 2 * E_l * (1 - E_l))
  (phi_w_prime_sq * g_w * (1 - E_w), phi_l_prime_sq * g_l * E_l)

/-- Fuelled fixed-point loop of `_estimate_pre_diff_from_post`
(probability.py lines 114-133).  Returns the final gap guess together with
the number of loop-body executions: the loop stops early, returning
`d_pre_new`, as soon as the guess changes by less than `tol`, and otherwise
continues from the damped combination of the old and new guesses. -/
noncomputable def _pre_diff_loop (d_post phi_w_est phi_l_est tol damping : ℝ) :
    Nat → ℝ → ℝ × Nat
  | 0, d_pre => (d_pre, 0)
  | n + 1, d_pre =>
    let deltas := _pre_diff_deltas phi_w_est phi_l_est d_pre
    let d_pre_new := d_post - (deltas.1 + deltas.2)
    if |d_pre_new - d_pre| < tol then (d_pre_new, 1)
    else
      let rest := _pre_diff_loop d_post phi_w_est phi_l_est tol damping n
        (damping * d_pre + (1 - damping) * d_pre_new)
      (rest.1, rest.2 + 1)

/-- Iteration cap of `_estimate_pre_diff_from_post` (probability.py, `max_iter`). -/
def MAX_ITER : Nat := 50

/-- Convergence tolerance of `_estimate_pre_diff_from_post` (probability.py, `tol`). -/
noncomputable def TOL : ℝ := 1e-12

/-- Damping factor of `_estimate_pre_diff_from_post` (probability.py, `damping`). -/
noncomputable def DAMPING : ℝ := 0.5

/-- Pre-game rating-difference estimation (probability.py,
`_estimate_pre_diff_from_post`): run the fixed-point loop, recompute the
deltas at the final gap, and return
(d_pre, mu_w_pre, mu_l_pre, delta_w, delta_l). -/
noncomputable def _estimate_pre_diff_from_post
    (mu_w_post mu_l_post phi_w_est phi_l_est : ℝ)
    (max_iter : Nat) (tol damping : ℝ) : ℝ × ℝ × ℝ × ℝ × ℝ :=
  let d_post := mu_w_post - mu_l_post
  let d_pre := (_pre_diff_loop d_post phi_w_est phi_l_est tol damping max_iter d_post).1
  let deltas := _pre_diff_deltas phi_w_est phi_l_est d_pre
  (d_pre, mu_w_post - deltas.1, mu_l_post + deltas.2, deltas.1, deltas.2)

/-- Classic Elo expectancy (probability.py, `expected_win_prob_elo`). -/
noncomputable def expected_win_prob_elo (r_winner r_loser : ℤ) : ℝ :=
  1 / (1 + (10 : ℝ) ^ (-((r_winner : ℝ) - (r_loser : ℝ)) / ELO_K_FACTOR))

/-- Top-level win-probability dispatcher (probability.py,
`expected_win_prob_glicko`).  Returns `none` when either rating is missing;
falls back to Elo when the loser's RD is missing; uses the single-sided
Glicko expectancy when only the loser's RD is known; and with both RDs uses
the symmetric combined-uncertainty expectancy, at estimated pre-game mu
values when `estimate_pregame` is set and at post-game mu values otherwise.
Note the function returns one optional float: the caller in
`streak_analyzer.py` line 167 nevertheless tries to unpack it into three
variables. -/
noncomputable def expected_win_prob_glicko
    (r_winner r_loser rd_winner rd_loser : Option ℤ)
    (estimate_pregame : Bool) (rd_inflation_factor : ℝ) : Option ℝ :=
  match r_winner, r_loser with
  | none, _ => none
  | _, none => none
  | some rw, some rl =>
    match rd_loser with
    | none => some (expected_win_prob_elo rw rl)
    | some rdl =>
      match rd_winner with
      | none =>
        let mu_w := to_mu (rw : ℝ)
        let mu_l := to_mu (rl : ℝ)
        let phi_l := to_phi (rdl : ℝ)
        some (expit (g_function phi_l * (mu_w - mu_l)))
      | some rdw =>
        let mu_w_post := to_mu (rw : ℝ)
        let mu_l_post := to_mu (rl : ℝ)
        let phi_w := to_phi ((rdw : ℝ) * rd_inflation_factor)
        let phi_l := to_phi ((rdl : ℝ) * rd_inflation_factor)
        if estimate_pregame then
          let est := _estimate_pre_diff_from_post mu_w_post mu_l_post phi_w phi_l
            MAX_ITER TOL DAMPING
          some (_expected_prob_symmetric est.2.1 est.2.2.1 phi_w phi_l)
        else
          some (_expected_prob_symmetric mu_w_post mu_l_post phi_w phi_l)

/-- Threshold classification (probability.py, `classify_streak_probability`):
the label of the first (label, cutoff) pair, in list order, whose cutoff the
probability is less than or equal to; `none` when no pair matches.  Stated
over any linear order so that it is executable at `ℚ` and usable at `ℝ`. -/
def classify_streak_probability {α : Type} [LinearOrder α] (probability : α) :
    List (String × α) → Option String
  | [] => none
  | (label, cutoff) :: rest =>
    if probability ≤ cutoff then some label else classify_streak_probability probability rest

/-- Clamping applied to each win probability before taking its logarithm
(probability.py line 278). -/
noncomputable def clamp_probability (p : ℝ) : ℝ := max (min p (1 - 1e-15)) 1e-15

/-- Log-space accumulator of `calculate_streak_probability`
(probability.py lines 275-279). -/
noncomputable def log_prob_sum (win_probabilities : List ℝ) : ℝ :=
  (win_probabilities.map (fun p => Real.log (clamp_probability p))).sum

/-- Combined streak probability (probability.py, `calculate_streak_probability`):
1 for the empty list, otherwise the exponential of the clamped log sum, with
an explicit underflow cutoff at -1e9. -/
noncomputable def calculate_streak_probability (win_probabilities : List ℝ) : ℝ :=
  match win_probabilities with
  | [] => 1
  | _ :: _ =>
    let s := log_prob_sum win_probabilities
    if s > -1e9 then Real.exp s else 0

/-! ### Game records and player data (models.py and the Chess.com game dicts) -/

/-- Lowercasing of one character, as Python `str.lower` acts on ASCII; used to
model the `.lower()` calls of the source on usernames. -/
def char_lower (c : Char) : Char :=
  if 65 ≤ c.toNat ∧ c.toNat ≤ 90 then Char.ofNat (c.toNat + 32) else c

/-- Python `str.lower` on a string (ASCII usernames). -/
def str_lower (s : String) : String := String.mk (s.data.map char_lower)

/-- One side of a game dict (`game["white"]` / `game["black"]`): optional
username, post-game rating and result tag. -/
structure SidePlayer where
  username : Option String
  rating : Option ℤ
  result : Option String
deriving DecidableEq

/-- The empty side dict, the default of `game.get("white", {}) or {}`. -/
def emptySide : SidePlayer := ⟨none, none, none⟩

/-- A raw game dict as consumed by `analyze_game_from_perspective`.
`end_time = none` models a missing or non-integer `end_time` (the source
checks `isinstance(end_time, int)`); `rules = some ""` models an empty but
present ruleset, which Python truthiness also rejects. -/
structure GameDict where
  end_time : Option ℤ
  rules : Option String
  time_class : Option String
  url : Option String
  white : Option SidePlayer
  black : Option SidePlayer
deriving DecidableEq

/-- The tuple returned by `analyze_game_from_perspective`
(streak_analyzer.py line 76). -/
structure GameAnalysis where
  won : Bool
  rules : String
  time_class : String
  end_time : ℤ
  my_rating : Option ℤ
  opponent_rating : Option ℤ
  opponent_username : String
  url : String
deriving DecidableEq

/-- Whether the subject matches the white side by case-insensitive username,
as computed at streak_analyzer.py line 54. -/
def subject_is_white (username : String) (game : GameDict) : Bool :=
  str_lower (((game.white.getD emptySide).username).getD "") == str_lower username

/-- Whether the subject matches the black side by case-insensitive username,
as computed at streak_analyzer.py line 55. -/
def subject_is_black (username : String) (game : GameDict) : Bool :=
  str_lower (((game.black.getD emptySide).username).getD "") == str_lower username

/-- Analysis of a game from the subject's perspective (streak_analyzer.py,
`analyze_game_from_perspective`): `none` when the end timestamp is missing or
non-integer, the ruleset or time-control class is missing or empty, or the
subject matches neither side; otherwise the win flag and the game fields from
the subject's side. -/
def analyze_game_from_perspective (username : String) (game : GameDict) :
    Option GameAnalysis :=
  let white_player := game.white.getD emptySide
  let black_player := game.black.getD emptySide
  match game.end_time, game.rules, game.time_class with
  | some end_time, some rules, some time_class =>
    if rules.isEmpty || time_class.isEmpty then none
    else
      let url := game.url.getD ""
      let is_white := subject_is_white username game
      let is_black := subject_is_black username game
      if !(is_white || is_black) then none
      else
        let white_won := white_player.result == some "win"
        let black_won := black_player.result == some "win"
        if is_white then
          some ⟨white_won, rules, time_class, end_time, white_player.rating,
            black_player.rating, black_player.username.getD "", url⟩
        else
          some ⟨black_won, rules, time_class, end_time, black_player.rating,
            white_player.rating, white_player.username.getD "", url⟩
  | _, _, _ => none

/-! ### Rating-deviation lookup (chess_api.py) and the shared stats cache -/

/-- The `"last"` sub-dict of one game-mode entry of a player-stats blob;
`rd = none` models a missing or non-numeric `last.rd`. -/
structure ModeLast where
  rd : Option ℤ
deriving DecidableEq

/-- A player-stats blob: game-mode entries keyed by `"{rules}_{time_class}"`. -/
structure PlayerStats where
  modes : List (String × ModeLast)
deriving DecidableEq

/-- The empty stats blob, the default of `stats_cache.get(key, {})`. -/
def emptyStats : PlayerStats := ⟨[]⟩

/-- Rating-deviation extraction (chess_api.py, `extract_rating_deviation`):
read `stats[f"{rules}_{time_class}"]["last"]["rd"]`, `none` when any level is
missing or the value is non-numeric. -/
def extract_rating_deviation (stats : PlayerStats) (rules time_class : String) :
    Option ℤ :=
  match stats.modes.lookup (rules ++ "_" ++ time_class) with
  | none => none
  | some last => last.rd

/-- The shared stats cache, a dict keyed by lowercase username. -/
def StatsCache : Type := List (String × PlayerStats)

/-- Cache and rating-deviation resolution performed on each win
(streak_analyzer.py lines 155-164): a check-then-insert of the opponent's
stats under the lowercase opponent username, then rating-deviation reads for
the opponent and for the subject (the subject read uses an empty-dict default
and never inserts).  Returns the updated cache, the opponent RD and the
subject RD. -/
def resolve_rating_deviations (fetch_player_stats : String → PlayerStats)
    (stats_cache : StatsCache) (player_username_lower : String)
    (opponent_username rules time_class : String) :
    StatsCache × Option ℤ × Option ℤ :=
  let opponent_username_lower := str_lower opponent_username
  let cache1 : StatsCache :=
    if (List.lookup opponent_username_lower stats_cache).isSome then stats_cache
    else (opponent_username_lower, fetch_player_stats opponent_username_lower) :: stats_cache
  let opponent_stats := (List.lookup opponent_username_lower cache1).getD emptyStats
  let opponent_rd := extract_rating_deviation opponent_stats rules time_class
  let my_stats := (List.lookup player_username_lower cache1).getD emptyStats
  let my_rd := extract_rating_deviation my_stats rules time_class
  (cache1, opponent_rd, my_rd)

/-! ### Streak detector (streak_analyzer.py) -/

/-- Player record (models.py, `PlayerInfo`). -/
structure PlayerInfo where
  username : String
  title : Option String
  avatar : Option String
  max_rating : Option ℤ
  country : Option String

/-- One game of a streak (models.py, `GameView`). -/
structure GameView where
  end_time : ℤ
  rules : String
  time_class : String
  url : String
  opponent_username : String
  opponent_rating : Option ℤ
  winner_rating : Option ℤ
  p_win : ℝ

/-- A finalized streak (models.py, `Streak`). -/
structure Streak where
  player : PlayerInfo
  start_time : ℤ
  end_time : ℤ
  length : ℕ
  p_combined : ℝ
  threshold_label : Option String
  games : List GameView

/-- Mutable state of `detect_win_streaks`: the emitted streaks, the open
streak's games and probabilities, its start time, and the shared stats cache. -/
structure DetectorState where
  streaks : List Streak
  current_streak_games : List GameView
  current_win_probabilities : List ℝ
  streak_start_time : Option ℤ
  stats_cache : StatsCache

/-- Streak finalization (streak_analyzer.py, `finalize_current_streak`):
a no-op when the open streak has no games; otherwise classify the combined
probability, append a `Streak` record exactly when some threshold matched,
and reset the open-streak fields.  The start time reproduces the source's
`streak_start_time or current_streak_games[0].end_time`, including Python's
treatment of a stored 0 as falsy. -/
noncomputable def finalize_current_streak (player : PlayerInfo)
    (thresholds : List (String × ℝ)) (st : DetectorState) : DetectorState :=
  match st.current_streak_games with
  | [] => st
  | g0 :: rest =>
    let combined_prob := calculate_streak_probability st.current_win_probabilities
    let threshold_label := classify_streak_probability combined_prob thresholds
    let streaks :=
      match threshold_label with
      | none => st.streaks
      | some _ =>
        let start_time :=
          match st.streak_start_time with
          | some t => if t ≠ 0 then t else g0.end_time
          | none => g0.end_time
        st.streaks ++ [⟨player, start_time, (rest.getLastD g0).end_time,
          (g0 :: rest).length, combined_prob, threshold_label, g0 :: rest⟩]
    ⟨streaks, [], [], none, st.stats_cache⟩

/-- The runtime failure of streak_analyzer.py line 167: the scalar
`Optional[float]` returned by `expected_win_prob_glicko` is unpacked into
three variables, which raises a TypeError whether the value is a float or
None. -/
def unpack_type_error : String :=
  "TypeError: cannot unpack non-iterable expected_win_prob_glicko result"

/-- One iteration of the game loop of `detect_win_streaks`
(streak_analyzer.py lines 140-195): skip an unanalyzable game, finalize on a
non-win, and on a win update the stats cache and then fail with the
line-167 TypeError (the scalar return of `expected_win_prob_glicko` cannot be
unpacked into three names, so the probability value is discarded unused). -/
noncomputable def detect_step (fetch_player_stats : String → PlayerStats)
    (player : PlayerInfo) (thresholds : List (String × ℝ))
    (st : DetectorState) (game : GameDict) : Except String DetectorState :=
  match analyze_game_from_perspective player.username game with
  | none => Except.ok st
  | some a =>
    if !a.won then Except.ok (finalize_current_streak player thresholds st)
    else
      let _resolved := resolve_rating_deviations fetch_player_stats st.stats_cache
        (str_lower player.username) a.opponent_username a.rules a.time_class
      Except.error unpack_type_error

/-- Streak detection over one player's games (streak_analyzer.py,
`detect_win_streaks`), with the external `fetch_player_stats` collaborator
passed as a function argument: fold the per-game step over the game list,
finalize any remaining streak, and return the emitted streaks; an error value
models the uncaught TypeError of the win path. -/
noncomputable def detect_win_streaks (fetch_player_stats : String → PlayerStats)
    (player : PlayerInfo) (games : List GameDict) (stats_cache : StatsCache)
    (thresholds : List (String × ℝ)) : Except String (List Streak) :=
  match games.foldlM (fun st g => detect_step fetch_player_stats player thresholds st g)
      (DetectorState.mk [] [] [] none stats_cache) with
  | Except.error e => Except.error e
  | Except.ok st => Except.ok (finalize_current_streak player thresholds st).streaks

/-- High-level per-player entry point (streak_analyzer.py,
`analyze_player_streaks`): empty game list short-circuits to an empty result,
otherwise run `detect_win_streaks`. -/
noncomputable def analyze_player_streaks (fetch_player_stats : String → PlayerStats)
    (player : PlayerInfo) (games : List GameDict) (stats_cache : StatsCache)
    (thresholds : List (String × ℝ)) : Except String (List Streak) :=
  match games with
  | [] => Except.ok []
  | _ :: _ => detect_win_streaks fetch_player_stats player games stats_cache thresholds

/-! ### Concrete fixtures used by closed theorems and witnesses -/

/-- Test subject. -/
def alice : PlayerInfo := ⟨"alice", none, none, none, none⟩

/-- A usable game that alice wins with both ratings present. -/
def gWin : GameDict := ⟨some 1000, some "chess", some "blitz", some "u1",
  some ⟨some "alice", some 1600, some "win"⟩, some ⟨some "bob", some 1500, some "resigned"⟩⟩

/-- A second usable win for alice. -/
def gWin2 : GameDict := ⟨some 3000, some "chess", some "blitz", some "u3",
  some ⟨some "alice", some 1610, some "win"⟩, some ⟨some "carl", some 1500, some "resigned"⟩⟩

/-- A game with a missing end timestamp: unusable, silently skipped. -/
def gSkip : GameDict := ⟨none, some "chess", some "blitz", some "u2",
  some ⟨some "alice", some 1605, some "win"⟩, some ⟨some "dan", some 1500, some "resigned"⟩⟩

/-- A usable game alice does not win (draw by agreement). -/
def gAgreed : GameDict := ⟨some 2000, some "chess", some "blitz", some "u4",
  some ⟨some "alice", some 1600, some "agreed"⟩, some ⟨some "bob", some 1500, some "agreed"⟩⟩

/-- A usable win for alice in which the opponent's rating is missing. -/
def gWinNoOppRating : GameDict := ⟨some 1000, some "chess", some "blitz", some "u5",
  some ⟨some "alice", some 1600, some "win"⟩, some ⟨some "bob", none, some "resigned"⟩⟩

/-- A stats source that knows a chess-blitz rating deviation for everyone. -/
def fetchStats0 : String → PlayerStats := fun _ => ⟨[("chess_blitz", ⟨some 50⟩)]⟩

/-- A one-entry threshold list. -/
noncomputable def thresholds0 : List (String × ℝ) := [("p5", 0.05)]

/-- An empty detector state over an empty cache. -/
def state0 : DetectorState := ⟨[], [], [], none, []⟩

/-! ### Theorems -/

/-- C1: the claim says `detect_win_streaks` never raises on any input and in
particular that processing a win never aborts; on the shipped code a single
usable win game aborts with a TypeError, because line 167 unpacks the scalar
`Optional[float]` returned by `expected_win_prob_glicko` into three
variables (and the `GameView` constructor is also called with
`estimated_winner_rating`/`estimated_loser_rating` keywords its dataclass
does not declare). -/
theorem detect_win_streaks_aborts_on_first_win :
    detect_win_streaks fetchStats0 alice [gWin] [] thresholds0 =
      Except.error unpack_type_error := rfl

/-- C7: the claim says a win with a missing rating records probability 0.5
and continues; in the shipped code `expected_win_prob_glicko` does return the
unavailable marker, but the detector aborts at the line-167 unpacking before
the neutral substitution at lines 170-174 can run. -/
theorem missing_rating_aborts_before_neutral_substitution :
    expected_win_prob_glicko (some 1600) none none none true 1 = none
    ∧ detect_win_streaks fetchStats0 alice [gWinNoOppRating] [] thresholds0 =
        Except.error unpack_type_error :=
  ⟨rfl, rfl⟩

/-- C9 counterexample: resolving the subject's rating deviation does not
compute the subject's missing cache entry.  With an empty cache, a win of
alice against Bob inserts only Bob's entry; alice's entry stays missing and
her rating deviation resolves to `none` even though the stats source knows a
deviation of 50 for her. -/
theorem subject_cache_entry_never_computed :
    (resolve_rating_deviations fetchStats0 [] "alice" "Bob" "chess" "blitz").1 =
      [("bob", fetchStats0 "bob")]
    ∧ List.lookup "alice"
        (resolve_rating_deviations fetchStats0 [] "alice" "Bob" "chess" "blitz").1 = none
    ∧ (resolve_rating_deviations fetchStats0 [] "alice" "Bob" "chess" "blitz").2.2 = none
    ∧ extract_rating_deviation (fetchStats0 "alice") "chess" "blitz" = some 50 :=
  ⟨rfl, rfl, rfl, rfl⟩

/-- The loosest (largest) cutoff of a nonempty threshold list. -/
def loosest_cutoff {α : Type} [LinearOrder α] (t0 : String × α) (ts : List (String × α)) : α :=
  (ts.map Prod.snd).foldl max t0.2

theorem le_foldl_max_iff {α : Type} [LinearOrder α] (p : α) (l : List α) (a : α) :
    p ≤ l.foldl max a ↔ p ≤ a ∨ ∃ b ∈ l, p ≤ b := by
  induction l generalizing a with
  | nil => simp
  | cons x xs ih =>
    simp only [List.foldl_cons, ih, le_max_iff, List.mem_cons]
    constructor
    · rintro ((h | h) | ⟨b, hb, h⟩)
      · exact Or.inl h
      · exact Or.inr ⟨x, Or.inl rfl, h⟩
      · exact Or.inr ⟨b, Or.inr hb, h⟩
    · rintro (h | ⟨b, hb | hb, h⟩)
      · exact Or.inl (Or.inl h)
      · exact Or.inl (Or.inr (hb ▸ h))
      · exact Or.inr ⟨b, hb, h⟩

theorem classify_isSome_iff {α : Type} [LinearOrder α] (p : α) (ts : List (String × α)) :
    (classify_streak_probability p ts).isSome = true ↔ ∃ lc ∈ ts, p ≤ lc.2 := by
  induction ts with
  | nil => simp [classify_streak_probability]
  | cons t rest ih =>
    obtain ⟨l, c⟩ := t
    by_cases h : p ≤ c
    · simp [classify_streak_probability, h]
    · simp only [classify_streak_probability, if_neg h, ih, List.mem_cons]
      constructor
      · rintro ⟨lc, hm, hle⟩
        exact ⟨lc, Or.inr hm, hle⟩
      · rintro ⟨lc, hm | hm, hle⟩
        · exact absurd hle (hm ▸ h)
        · exact ⟨lc, hm, hle⟩

theorem streaks_append_ne {s : List Streak} {x : Streak} : s ++ [x] ≠ s := by
  intro h
  have := congrArg List.length h
  simp at this

/-- C2: `classify_streak_probability` returns the label of the first pair in
caller-supplied order whose cutoff the probability is `≤` (inclusively), and
`none` when no pair matches; consequently, `finalize_current_streak` appends
a streak record exactly when the combined probability is `≤` the loosest
configured cutoff, equality at a cutoff qualifying. -/
theorem classify_first_match_and_loosest_cutoff :
    (∀ (p c : ℝ) (l : String) (ts : List (String × ℝ)), p ≤ c →
        classify_streak_probability p ((l, c) :: ts) = some l)
    ∧ (∀ (p c : ℝ) (l : String) (ts : List (String × ℝ)), ¬ p ≤ c →
        classify_streak_probability p ((l, c) :: ts) = classify_streak_probability p ts)
    ∧ (∀ (p : ℝ) (ts : List (String × ℝ)),
        classify_streak_probability p ts = none ↔ ∀ lc ∈ ts, ¬ p ≤ lc.2)
    ∧ (∀ (p : ℝ) (t0 : String × ℝ) (ts : List (String × ℝ)),
        (classify_streak_probability p (t0 :: ts)).isSome = true ↔ p ≤ loosest_cutoff t0 ts)
    ∧ (∀ (player : PlayerInfo) (t0 : String × ℝ) (ts : List (String × ℝ))
        (streaks : List Streak) (g0 : GameView) (gs : List GameView) (probs : List ℝ)
        (sst : Option ℤ) (cache : StatsCache),
        (finalize_current_streak player (t0 :: ts)
            ⟨streaks, g0 :: gs, probs, sst, cache⟩).streaks ≠ streaks
          ↔ calculate_streak_probability probs ≤ loosest_cutoff t0 ts) := by
  have hsome : ∀ (p : ℝ) (t0 : String × ℝ) (ts : List (String × ℝ)),
      (classify_streak_probability p (t0 :: ts)).isSome = true ↔ p ≤ loosest_cutoff t0 ts := by
    intro p t0 ts
    rw [classify_isSome_iff]
    unfold loosest_cutoff
    rw [le_foldl_max_iff]
    constructor
    · rintro ⟨lc, hm, hle⟩
      rcases List.mem_cons.mp hm with h | h
      · exact Or.inl (h ▸ hle)
      · exact Or.inr ⟨lc.2, List.mem_map.mpr ⟨lc, h, rfl⟩, hle⟩
    · rintro (h | ⟨b, hb, hle⟩)
      · exact ⟨t0, List.mem_cons_self _ _, h⟩
      · obtain ⟨lc, hm, hsnd⟩ := List.mem_map.mp hb
        exact ⟨lc, List.mem_cons_of_mem _ hm, hsnd ▸ hle⟩
  refine ⟨?_, ?_, ?_, hsome, ?_⟩
  · intro p c l ts h
    simp [classify_streak_probability, h]
  · intro p c l ts h
    simp [classify_streak_probability, h]
  · intro p ts
    induction ts with
    | nil => simp [classify_streak_probability]
    | cons t rest ih =>
      obtain ⟨l, c⟩ := t
      by_cases h : p ≤ c
      · simp [classify_streak_probability, h]
      · simp only [classify_streak_probability, if_neg h, ih, List.mem_cons]
        constructor
        · rintro hall lc (hm | hm)
          · subst hm; exact h
          · exact hall lc hm
        · intro hall lc hm
          exact hall lc (Or.inr hm)
  · intro player t0 ts streaks g0 gs probs sst cache
    rw [← hsome]
    unfold finalize_current_streak
    dsimp only
    rcases hcl : classify_streak_probability (calculate_streak_probability probs) (t0 :: ts) with
      _ | l
    · simp [hcl]
    · simp only [hcl, Option.isSome_some, ne_eq, iff_true]
      exact streaks_append_ne

/-- C2 witness: the classifier takes the first matching pair (0.005 matched
against the 0.05 cutoff listed first), equality at a cutoff qualifies, and a
non-matching head pair defers to the rest of the list. -/
theorem classify_first_match_witness :
    classify_streak_probability (0.005 : ℝ) [("p5", 0.05), ("p1", 0.01)] = some "p5"
    ∧ classify_streak_probability (0.05 : ℝ) [("p5", 0.05)] = some "p5"
    ∧ classify_streak_probability (0.005 : ℝ) [("p01", 0.001)] =
        classify_streak_probability (0.005 : ℝ) [] :=
  ⟨classify_first_match_and_loosest_cutoff.1 0.005 0.05 "p5" [("p1", 0.01)] (by norm_num),
   classify_first_match_and_loosest_cutoff.1 0.05 0.05 "p5" [] le_rfl,
   classify_first_match_and_loosest_cutoff.2.1 0.005 0.001 "p01" [] (by norm_num)⟩

/-- C10: `calculate_streak_probability` of the empty list is exactly 1 (the
empty product), and `finalize_current_streak` is a no-op on a state whose
open streak holds no games. -/
theorem empty_probability_one_and_finalize_noop :
    calculate_streak_probability [] = 1
    ∧ ∀ (player : PlayerInfo) (ths : List (String × ℝ)) (st : DetectorState),
        st.current_streak_games = [] → finalize_current_streak player ths st = st := by
  refine ⟨rfl, ?_⟩
  intro player ths st h
  obtain ⟨s, c, w, t, cache⟩ := st
  cases h
  rfl

/-- C10 witness: the no-op at a concrete empty state. -/
theorem empty_finalize_noop_witness :
    finalize_current_streak alice thresholds0 state0 = state0
    ∧ calculate_streak_probability [] = 1 :=
  ⟨empty_probability_one_and_finalize_noop.2 alice thresholds0 state0 rfl,
   empty_probability_one_and_finalize_noop.1⟩

theorem clamp_probability_pos (p : ℝ) : 0 < clamp_probability p :=
  lt_of_lt_of_le (by norm_num) (le_max_right _ _)

theorem clamp_probability_le (p : ℝ) : clamp_probability p ≤ 1 - 1e-15 :=
  max_le (min_le_right _ _) (by norm_num)

theorem exp_neg_billion_small : Real.exp (-1e9) < 1e-15 := by
  have h1 : (5e8 : ℝ) + 1 ≤ Real.exp 5e8 := Real.add_one_le_exp (5e8 : ℝ)
  have h2 : (0 : ℝ) < Real.exp 5e8 := Real.exp_pos _
  have h3 : Real.exp (-(5e8 : ℝ)) < 1e-8 := by
    rw [Real.exp_neg]
    rw [inv_lt_comm₀ h2 (by norm_num)]
    calc (1e-8 : ℝ)⁻¹ = 1e8 := by norm_num
    _ < 5e8 + 1 := by norm_num
    _ ≤ Real.exp 5e8 := h1
  have h4 : Real.exp (-(1e9 : ℝ)) = Real.exp (-(5e8 : ℝ)) * Real.exp (-(5e8 : ℝ)) := by
    rw [← Real.exp_add]
    norm_num
  have h5 : (0 : ℝ) < Real.exp (-(5e8 : ℝ)) := Real.exp_pos _
  rw [h4]
  nlinarith

theorem log_clamp_gt (p : ℝ) : Real.log (clamp_probability p) > -1e9 := by
  have h15 : (1e-15 : ℝ) ≤ clamp_probability p := le_max_right _ _
  have hmono : Real.log (1e-15 : ℝ) ≤ Real.log (clamp_probability p) :=
    Real.log_le_log (by norm_num) h15
  have hlow : (-1e9 : ℝ) < Real.log (1e-15 : ℝ) :=
    (Real.lt_log_iff_exp_lt (by norm_num)).mpr exp_neg_billion_small
  exact lt_of_lt_of_le hlow hmono

theorem log_clamp_nonpos (p : ℝ) : Real.log (clamp_probability p) ≤ 0 :=
  Real.log_nonpos (le_of_lt (clamp_probability_pos p))
    (le_trans (clamp_probability_le p) (by norm_num))

theorem calculate_singleton (p : ℝ) :
    calculate_streak_probability [p] = clamp_probability p := by
  unfold calculate_streak_probability log_prob_sum
  simp only [List.map_cons, List.map_nil, List.sum_cons, List.sum_nil, add_zero]
  rw [if_pos (log_clamp_gt p)]
  exact Real.exp_log (clamp_probability_pos p)

theorem log_prob_sum_append_singleton (ps : List ℝ) (q : ℝ) :
    log_prob_sum (ps ++ [q]) = log_prob_sum ps + Real.log (clamp_probability q) := by
  unfold log_prob_sum
  rw [List.map_append, List.sum_append]
  simp

theorem calculate_append_le (ps : List ℝ) (q : ℝ) :
    calculate_streak_probability (ps ++ [q]) ≤ calculate_streak_probability ps := by
  cases ps with
  | nil =>
    simp only [List.nil_append]
    rw [calculate_singleton]
    calc clamp_probability q ≤ 1 - 1e-15 := clamp_probability_le q
    _ ≤ calculate_streak_probability [] := by
        unfold calculate_streak_probability; norm_num
  | cons a rest =>
    have hlog := log_clamp_nonpos q
    have happ : log_prob_sum (a :: rest ++ [q]) =
        log_prob_sum (a :: rest) + Real.log (clamp_probability q) :=
      log_prob_sum_append_singleton (a :: rest) q
    show calculate_streak_probability (a :: (rest ++ [q])) ≤ _
    unfold calculate_streak_probability
    dsimp only
    rw [show a :: (rest ++ [q]) = a :: rest ++ [q] from rfl, happ]
    by_cases hs : log_prob_sum (a :: rest) + Real.log (clamp_probability q) > -1e9
    · have hs2 : log_prob_sum (a :: rest) > -1e9 := by linarith
      rw [if_pos hs, if_pos hs2]
      exact Real.exp_le_exp.mpr (by linarith)
    · rw [if_neg hs]
      split
      · exact le_of_lt (Real.exp_pos _)
      · exact le_refl 0

/-- C3: a single-game streak's combined probability is the game probability
clamped into [1e-15, 1 - 1e-15], and appending a probability below 1 never
increases the combined probability. -/
theorem streak_probability_single_and_monotone :
    (∀ p : ℝ, calculate_streak_probability [p] = clamp_probability p)
    ∧ ∀ (ps : List ℝ) (q : ℝ), q < 1 →
        calculate_streak_probability (ps ++ [q]) ≤ calculate_streak_probability ps :=
  ⟨calculate_singleton, fun ps q _ => calculate_append_le ps q⟩

/-- C3 witness: the two parts at probability one half. -/
theorem streak_probability_witness :
    calculate_streak_probability [(1 / 2 : ℝ)] = clamp_probability (1 / 2)
    ∧ calculate_streak_probability ([(1 / 2 : ℝ)] ++ [(1 / 2 : ℝ)]) ≤
        calculate_streak_probability [(1 / 2 : ℝ)] :=
  ⟨streak_probability_single_and_monotone.1 (1 / 2),
   streak_probability_single_and_monotone.2 [(1 / 2)] (1 / 2) one_half_lt_one⟩

/-- C4: dispatch structure of `expected_win_prob_glicko`: `none` exactly when
a rating is missing; Elo fallback whenever the loser's RD is missing,
regardless of the winner's RD; single-sided Glicko expectancy when only the
loser's RD is known (no inflation applied on that path); and with both RDs
the symmetric combined-uncertainty expectancy, at estimated pre-game mu
values when `estimate_pregame` is true and at post-game mu values otherwise. -/
theorem glicko_dispatch_structure :
    (∀ (r_w r_l rd_w rd_l : Option ℤ) (est : Bool) (infl : ℝ),
        expected_win_prob_glicko r_w r_l rd_w rd_l est infl = none ↔
          r_w = none ∨ r_l = none)
    ∧ (∀ (rw rl : ℤ) (rd_w : Option ℤ) (est : Bool) (infl : ℝ),
        expected_win_prob_glicko (some rw) (some rl) rd_w none est infl =
          some (expected_win_prob_elo rw rl))
    ∧ (∀ (rw rl : ℤ), expected_win_prob_elo rw rl =
        1 / (1 + (10 : ℝ) ^ (-((rw : ℝ) - (rl : ℝ)) / 400)))
    ∧ (∀ (rw rl rdl : ℤ) (est : Bool) (infl : ℝ),
        expected_win_prob_glicko (some rw) (some rl) none (some rdl) est infl =
          some (expit (g_function (to_phi (rdl : ℝ)) * (to_mu (rw : ℝ) - to_mu (rl : ℝ)))))
    ∧ (∀ (rw rl rdw rdl : ℤ) (infl : ℝ),
        expected_win_prob_glicko (some rw) (some rl) (some rdw) (some rdl) true infl =
          some (_expected_prob_symmetric
            (_estimate_pre_diff_from_post (to_mu (rw : ℝ)) (to_mu (rl : ℝ))
              (to_phi ((rdw : ℝ) * infl)) (to_phi ((rdl : ℝ) * infl)) MAX_ITER TOL DAMPING).2.1
            (_estimate_pre_diff_from_post (to_mu (rw : ℝ)) (to_mu (rl : ℝ))
              (to_phi ((rdw : ℝ) * infl)) (to_phi ((rdl : ℝ) * infl)) MAX_ITER TOL DAMPING).2.2.1
            (to_phi ((rdw : ℝ) * infl)) (to_phi ((rdl : ℝ) * infl))))
    ∧ (∀ (rw rl rdw rdl : ℤ) (infl : ℝ),
        expected_win_prob_glicko (some rw) (some rl) (some rdw) (some rdl) false infl =
          some (_expected_prob_symmetric (to_mu (rw : ℝ)) (to_mu (rl : ℝ))
            (to_phi ((rdw : ℝ) * infl)) (to_phi ((rdl : ℝ) * infl)))) := by
  refine ⟨?_, fun _ _ _ _ _ => rfl, fun _ _ => rfl, fun _ _ _ _ _ => rfl,
    fun _ _ _ _ _ => rfl, fun _ _ _ _ _ => rfl⟩
  intro r_w r_l rd_w rd_l est infl
  cases r_w with
  | none => simp [expected_win_prob_glicko]
  | some rw =>
    cases r_l with
    | none => simp [expected_win_prob_glicko]
    | some rl =>
      simp only [expected_win_prob_glicko]
      cases rd_l with
      | none => simp
      | some rdl =>
        cases rd_w with
        | none => simp
        | some rdw => cases est <;> simp

theorem finalize_resets_current (player : PlayerInfo) (ths : List (String × ℝ))
    (st : DetectorState) :
    (finalize_current_streak player ths st).current_streak_games = [] := by
  unfold finalize_current_streak
  rcases h : st.current_streak_games with _ | ⟨g0, rest⟩
  · exact h
  · rfl

/-- C5: a usable game counts as a win exactly when the subject side's result
field is the string "win"; a usable non-win finalizes the open streak and
resets the detector to idle; and a step that leaves the detector with a
longer open streak can only come from a game analyzed as won. -/
theorem win_marker_and_nonwin_transition :
    (∀ (username : String) (game : GameDict) (a : GameAnalysis),
        analyze_game_from_perspective username game = some a →
        a.won = ((if subject_is_white username game
                  then (game.white.getD emptySide).result
                  else (game.black.getD emptySide).result) == some "win"))
    ∧ (∀ (fetch : String → PlayerStats) (player : PlayerInfo)
        (ths : List (String × ℝ)) (st : DetectorState) (game : GameDict) (a : GameAnalysis),
        analyze_game_from_perspective player.username game = some a → a.won = false →
        detect_step fetch player ths st game =
          Except.ok (finalize_current_streak player ths st))
    ∧ (∀ (fetch : String → PlayerStats) (player : PlayerInfo)
        (ths : List (String × ℝ)) (st st' : DetectorState) (game : GameDict),
        detect_step fetch player ths st game = Except.ok st' →
        st.current_streak_games.length < st'.current_streak_games.length →
        ∃ a, analyze_game_from_perspective player.username game = some a ∧ a.won = true) := by
  refine ⟨?_, ?_, ?_⟩
  · intro username game a h
    unfold analyze_game_from_perspective at h
    rcases het : game.end_time with _ | et <;> rw [het] at h
    · exact Option.noConfusion h
    rcases hru : game.rules with _ | ru <;> rw [hru] at h
    · exact Option.noConfusion h
    rcases htc : game.time_class with _ | tc <;> rw [htc] at h
    · exact Option.noConfusion h
    cases hie : (ru.isEmpty || tc.isEmpty) <;> simp only [hie] at h
    case true => simp at h
    case false =>
    simp only [Bool.false_eq_true, if_false] at h
    cases hw : subject_is_white username game <;>
      cases hb : subject_is_black username game <;>
        simp only [hw, hb] at h
    · simp at h
    · simp at h ⊢
      rw [← h]
    · simp at h ⊢
      rw [← h]
    · simp at h ⊢
      rw [← h]
  · intro fetch player ths st game a h hwon
    unfold detect_step
    rw [h]
    simp [hwon]
  · intro fetch player ths st st' game h hlen
    unfold detect_step at h
    rcases han : analyze_game_from_perspective player.username game with _ | a <;>
      rw [han] at h
    · injection h with h
      subst h
      exact absurd hlen (lt_irrefl _)
    · cases hwon : a.won
      · simp only [hwon, Bool.not_false, if_true] at h
        injection h with h
        subst h
        rw [finalize_resets_current] at hlen
        exact absurd hlen (Nat.not_lt_zero _)
      · simp [hwon] at h

/-- C5 witness: a concrete drawn game (result "agreed") does not count as a
win, and processing it finalizes the open streak. -/
theorem win_marker_witness :
    detect_step fetchStats0 alice thresholds0 state0 gAgreed =
      Except.ok (finalize_current_streak alice thresholds0 state0)
    ∧ (GameAnalysis.won ⟨false, "chess", "blitz", 2000, some 1600, some 1500, "bob", "u4"⟩) =
        ((if subject_is_white "alice" gAgreed
          then (gAgreed.white.getD emptySide).result
          else (gAgreed.black.getD emptySide).result) == some "win") :=
  ⟨win_marker_and_nonwin_transition.2.1 fetchStats0 alice thresholds0 state0 gAgreed
      ⟨false, "chess", "blitz", 2000, some 1600, some 1500, "bob", "u4"⟩ rfl rfl,
   win_marker_and_nonwin_transition.1 "alice" gAgreed
      ⟨false, "chess", "blitz", 2000, some 1600, some 1500, "bob", "u4"⟩ rfl⟩

theorem analyze_unusable_none (username : String) (game : GameDict)
    (h : game.end_time = none ∨ game.rules = none ∨ game.rules = some "" ∨
      game.time_class = none ∨ game.time_class = some "" ∨
      (subject_is_white username game = false ∧ subject_is_black username game = false)) :
    analyze_game_from_perspective username game = none := by
  unfold analyze_game_from_perspective
  rcases het : game.end_time with _ | et <;>
    rcases hru : game.rules with _ | ru <;>
      rcases htc : game.time_class with _ | tc <;>
        try rfl
  rcases h with h | h | h | h | h | ⟨h1, h2⟩
  · rw [het] at h; exact Option.noConfusion h
  · rw [hru] at h; exact Option.noConfusion h
  · rw [hru] at h; injection h with h; subst h; rfl
  · rw [htc] at h; exact Option.noConfusion h
  · rw [htc] at h; injection h with h; subst h
    have he : "".isEmpty = true := rfl
    simp [he]
  · simp only [h1, h2]
    cases ru.isEmpty <;> cases tc.isEmpty <;> simp

/-- C6: a game with a missing end timestamp, a missing (or empty) ruleset or
time-control class, or in which the subject matches neither side is analyzed
as unusable, and processing an unusable game returns the detector state
exactly unchanged; the claimed consequence — two wins separated only by such
games forming one contiguous streak — does not hold on the shipped code,
which instead aborts at the first win with the line-167 TypeError. -/
theorem unusable_game_frame_and_win_crash :
    (∀ (username : String) (game : GameDict), game.end_time = none →
        analyze_game_from_perspective username game = none)
    ∧ (∀ (username : String) (game : GameDict),
        game.rules = none ∨ game.rules = some "" →
        analyze_game_from_perspective username game = none)
    ∧ (∀ (username : String) (game : GameDict),
        game.time_class = none ∨ game.time_class = some "" →
        analyze_game_from_perspective username game = none)
    ∧ (∀ (username : String) (game : GameDict),
        subject_is_white username game = false → subject_is_black username game = false →
        analyze_game_from_perspective username game = none)
    ∧ (∀ (fetch : String → PlayerStats) (player : PlayerInfo) (ths : List (String × ℝ))
        (st : DetectorState) (game : GameDict),
        analyze_game_from_perspective player.username game = none →
        detect_step fetch player ths st game = Except.ok st)
    ∧ detect_win_streaks fetchStats0 alice [gWin, gSkip, gWin2] [] thresholds0 =
        Except.error unpack_type_error := by
  refine ⟨?_, ?_, ?_, ?_, ?_, rfl⟩
  · intro username game h
    exact analyze_unusable_none username game (Or.inl h)
  · intro username game h
    rcases h with h | h
    · exact analyze_unusable_none username game (Or.inr (Or.inl h))
    · exact analyze_unusable_none username game (Or.inr (Or.inr (Or.inl h)))
  · intro username game h
    rcases h with h | h
    · exact analyze_unusable_none username game (Or.inr (Or.inr (Or.inr (Or.inl h))))
    · exact analyze_unusable_none username game (Or.inr (Or.inr (Or.inr (Or.inr (Or.inl h)))))
  · intro username game h1 h2
    exact analyze_unusable_none username game
      (Or.inr (Or.inr (Or.inr (Or.inr (Or.inr ⟨h1, h2⟩)))))
  · intro fetch player ths st game h
    unfold detect_step
    rw [h]

/-- C6 witness: the frame property at the concrete skipped game `gSkip`. -/
theorem unusable_game_frame_witness :
    analyze_game_from_perspective "alice" gSkip = none
    ∧ detect_step fetchStats0 alice thresholds0 state0 gSkip = Except.ok state0 :=
  ⟨unusable_game_frame_and_win_crash.1 "alice" gSkip rfl,
   unusable_game_frame_and_win_crash.2.2.2.2.1 fetchStats0 alice thresholds0 state0 gSkip
     (unusable_game_frame_and_win_crash.1 "alice" gSkip rfl)⟩

/-- C9 (amended): the win-path cache resolution lazily computes and inserts
only the opponent's missing stats entry, at most once and never overwriting
an existing entry and touching no other key; the subject's rating deviation
is resolved by a read-only lookup (with an empty default) against the cache
after the opponent update, and a missing subject entry is never computed. -/
theorem cache_write_discipline :
    (∀ (fetch : String → PlayerStats) (cache : StatsCache) (pl opp ru tc : String),
        (List.lookup (str_lower opp) cache).isSome = true →
        (resolve_rating_deviations fetch cache pl opp ru tc).1 = cache)
    ∧ (∀ (fetch : String → PlayerStats) (cache : StatsCache) (pl opp ru tc : String),
        List.lookup (str_lower opp) cache = none →
        (resolve_rating_deviations fetch cache pl opp ru tc).1 =
          (str_lower opp, fetch (str_lower opp)) :: cache)
    ∧ (∀ (fetch : String → PlayerStats) (cache : StatsCache) (pl opp ru tc k : String),
        k ≠ str_lower opp →
        List.lookup k (resolve_rating_deviations fetch cache pl opp ru tc).1 =
          List.lookup k cache)
    ∧ (∀ (fetch : String → PlayerStats) (cache : StatsCache) (pl opp ru tc : String),
        (resolve_rating_deviations fetch cache pl opp ru tc).2.2 =
          extract_rating_deviation
            ((List.lookup pl (resolve_rating_deviations fetch cache pl opp ru tc).1).getD
              emptyStats) ru tc) := by
  refine ⟨?_, ?_, ?_, fun _ _ _ _ _ _ => rfl⟩
  · intro fetch cache pl opp ru tc h
    unfold resolve_rating_deviations
    simp [h]
  · intro fetch cache pl opp ru tc h
    unfold resolve_rating_deviations
    simp [h]
  · intro fetch cache pl opp ru tc k hk
    unfold resolve_rating_deviations
    by_cases hs : (List.lookup (str_lower opp) cache).isSome = true
    · simp [hs]
    · have hne : (k == str_lower opp) = false := beq_eq_false_iff_ne.mpr hk
      simp [hs, List.lookup, hne]

/-- C9 witness for the amended discipline: an existing opponent entry is not
overwritten, a missing one is inserted exactly once, and unrelated keys are
untouched. -/
theorem cache_write_discipline_witness :
    (resolve_rating_deviations fetchStats0 [("bob", emptyStats)] "alice" "Bob" "chess" "blitz").1 =
      [("bob", emptyStats)]
    ∧ (resolve_rating_deviations fetchStats0 [] "alice" "Bob" "chess" "blitz").1 =
        [(str_lower "Bob", fetchStats0 (str_lower "Bob"))]
    ∧ List.lookup "carl"
        (resolve_rating_deviations fetchStats0 [] "alice" "Bob" "chess" "blitz").1 =
        List.lookup "carl" ([] : StatsCache) :=
  ⟨cache_write_discipline.1 fetchStats0 [("bob", emptyStats)] "alice" "Bob" "chess" "blitz" rfl,
   cache_write_discipline.2.1 fetchStats0 [] "alice" "Bob" "chess" "blitz" rfl,
   cache_write_discipline.2.2.1 fetchStats0 [] "alice" "Bob" "chess" "blitz" "carl" (by decide)⟩

theorem pre_diff_loop_succ (d_post phi_w phi_l tol damping : ℝ) (n : ℕ) (d : ℝ) :
    _pre_diff_loop d_post phi_w phi_l tol damping (n + 1) d =
      (if |d_post - ((_pre_diff_deltas phi_w phi_l d).1 + (_pre_diff_deltas phi_w phi_l d).2)
            - d| < tol
       then (d_post - ((_pre_diff_deltas phi_w phi_l d).1 + (_pre_diff_deltas phi_w phi_l d).2),
             1)
       else
        ((_pre_diff_loop d_post phi_w phi_l tol damping n
            (damping * d + (1 - damping) *
              (d_post - ((_pre_diff_deltas phi_w phi_l d).1
                + (_pre_diff_deltas phi_w phi_l d).2)))).1,
         (_pre_diff_loop d_post phi_w phi_l tol damping n
            (damping * d + (1 - damping) *
              (d_post - ((_pre_diff_deltas phi_w phi_l d).1
                + (_pre_diff_deltas phi_w phi_l d).2)))).2 + 1)) := rfl

theorem pre_diff_loop_count_le (d_post phi_w phi_l tol damping : ℝ) (n : ℕ) :
    ∀ d : ℝ, (_pre_diff_loop d_post phi_w phi_l tol damping n d).2 ≤ n := by
  induction n with
  | zero => intro d; exact Nat.le_refl 0
  | succ m ih =>
    intro d
    rw [pre_diff_loop_succ]
    split
    · exact Nat.succ_le_succ (Nat.zero_le m)
    · exact Nat.succ_le_succ (ih _)

/-- C8: the pre-game gap estimation is total and bounded: the fixed-point
loop executes its body at most `n` times on fuel `n`, hence at most 50 times
at the source's iteration cap; each iteration stops early, returning the new
guess, exactly when the guess changes by less than the tolerance, and
otherwise continues from the 50/50-damped combination; and
`_estimate_pre_diff_from_post` always returns the 5-tuple
(d_pre, mu_w_pre, mu_l_pre, delta_w, delta_l) computed from the loop's final
iterate, whether or not the tolerance was ever reached. -/
theorem pre_diff_iteration_bounded :
    MAX_ITER = 50 ∧ TOL = 1e-12 ∧ DAMPING = 1 / 2
    ∧ (∀ (d_post phi_w phi_l tol damping : ℝ) (n : ℕ) (d : ℝ),
        (_pre_diff_loop d_post phi_w phi_l tol damping n d).2 ≤ n)
    ∧ (∀ (d_post phi_w phi_l tol damping d : ℝ),
        (_pre_diff_loop d_post phi_w phi_l tol damping MAX_ITER d).2 ≤ 50)
    ∧ (∀ (d_post phi_w phi_l tol damping : ℝ) (n : ℕ) (d : ℝ),
        _pre_diff_loop d_post phi_w phi_l tol damping (n + 1) d =
          (if |d_post - ((_pre_diff_deltas phi_w phi_l d).1
                + (_pre_diff_deltas phi_w phi_l d).2) - d| < tol
           then (d_post - ((_pre_diff_deltas phi_w phi_l d).1
                  + (_pre_diff_deltas phi_w phi_l d).2), 1)
           else
            ((_pre_diff_loop d_post phi_w phi_l tol damping n
                (damping * d + (1 - damping) *
                  (d_post - ((_pre_diff_deltas phi_w phi_l d).1
                    + (_pre_diff_deltas phi_w phi_l d).2)))).1,
             (_pre_diff_loop d_post phi_w phi_l tol damping n
                (damping * d + (1 - damping) *
                  (d_post - ((_pre_diff_deltas phi_w phi_l d).1
                    + (_pre_diff_deltas phi_w phi_l d).2)))).2 + 1)))
    ∧ (∀ (mu_w_post mu_l_post phi_w phi_l : ℝ),
        _estimate_pre_diff_from_post mu_w_post mu_l_post phi_w phi_l MAX_ITER TOL DAMPING =
          ((_pre_diff_loop (mu_w_post - mu_l_post) phi_w phi_l TOL DAMPING MAX_ITER
              (mu_w_post - mu_l_post)).1,
           mu_w_post - (_pre_diff_deltas phi_w phi_l
              ((_pre_diff_loop (mu_w_post - mu_l_post) phi_w phi_l TOL DAMPING MAX_ITER
                (mu_w_post - mu_l_post)).1)).1,
           mu_l_post + (_pre_diff_deltas phi_w phi_l
              ((_pre_diff_loop (mu_w_post - mu_l_post) phi_w phi_l TOL DAMPING MAX_ITER
                (mu_w_post - mu_l_post)).1)).2,
           (_pre_diff_deltas phi_w phi_l
              ((_pre_diff_loop (mu_w_post - mu_l_post) phi_w phi_l TOL DAMPING MAX_ITER
                (mu_w_post - mu_l_post)).1)).1,
           (_pre_diff_deltas phi_w phi_l
              ((_pre_diff_loop (mu_w_post - mu_l_post) phi_w phi_l TOL DAMPING MAX_ITER
                (mu_w_post - mu_l_post)).1)).2)) :=
  ⟨rfl, rfl, by norm_num [DAMPING],
   pre_diff_loop_count_le,
   fun d_post phi_w phi_l tol damping d =>
     pre_diff_loop_count_le d_post phi_w phi_l tol damping MAX_ITER d,
   pre_diff_loop_succ,
   fun _ _ _ _ => rfl⟩

end ChessCoach
